import Mathlib

/-!
Shallow embedding of `winstart` (`src/main.rs`), a Windows command-line
launcher that forwards a file/URL and optional arguments to `ShellExecuteA`.

Rust strings are modelled as Lean `String` (a wrapper around `List Char`);
the argument-joining loop works on `List Char` at its core.  The external
`ShellExecuteA` call is modelled as an oracle: the status it would return is
an explicit parameter of `run`, and the call that the program makes (file,
parameter string, window/verb/directory arguments, show command) is recorded
in the result so that claims about "what the OS primitive was invoked with"
can be stated.  The process environment is modelled as a finite map
`String → Option String`.
-/

namespace Winstart

/-! ### Constants from the `winapi` crate (external to the repository).
These numeric values are the standard Windows SDK constants re-exported by
`winapi::shared::winerror`, `winapi::um::shellapi` and `winapi::um::winuser`. -/

def ERROR_FILE_NOT_FOUND : Nat := 2
def ERROR_PATH_NOT_FOUND : Nat := 3
def ERROR_BAD_FORMAT : Nat := 11
def SE_ERR_ACCESSDENIED : Nat := 5
def SE_ERR_OOM : Nat := 8
def SE_ERR_SHARE : Nat := 26
def SE_ERR_ASSOCINCOMPLETE : Nat := 27
def SE_ERR_DDETIMEOUT : Nat := 28
def SE_ERR_DDEFAIL : Nat := 29
def SE_ERR_DDEBUSY : Nat := 30
def SE_ERR_NOASSOC : Nat := 31
def SE_ERR_DLLNOTFOUND : Nat := 32
def SW_SHOWNORMAL : Int := 1

/-- Error taxonomy of the launcher.  In the Rust source all errors are
`anyhow` errors built from strings; the constructor records which site
produced the error (usage check, `CString::new`, status interpretation) and
the string carries the exact message from the source. -/
inductive Error where
  | usageError (msg : String)
  | encodingError (msg : String)
  | launchError (msg : String)
  deriving DecidableEq, Repr

/-- `check_shellexecute_status` from `src/main.rs`: interprets the `u32`
status returned by `ShellExecuteA`.  `> 32` is success; otherwise a
`LaunchError` with a message selected by exact match on the status code,
mirroring the Rust `match` arm for arm (the wildcard arm gives the generic
unknown-error message). -/
def check_shellexecute_status (status : Nat) : Except Error Unit :=
  if status > 32 then
    Except.ok ()
  else
    let msg :=
      if status = 0 then " The operating system is out of memory or resources."
      else if status = ERROR_FILE_NOT_FOUND then "The specified file was not found"
      else if status = ERROR_PATH_NOT_FOUND then "The specified path was not found."
      else if status = ERROR_BAD_FORMAT then "The .exe file is invalid (non-Win32 .exe or error in .exe image)."
      else if status = SE_ERR_ACCESSDENIED then "The operating system denied access to the specified file."
      else if status = SE_ERR_ASSOCINCOMPLETE then "The file name association is incomplete or invalid."
      else if status = SE_ERR_DDEBUSY then "The DDE transaction could not be completed because other DDE transactions were being processed."
      else if status = SE_ERR_DDEFAIL then "The DDE transaction failed."
      else if status = SE_ERR_DDETIMEOUT then "The DDE transaction could not be completed because the request timed out."
      else if status = SE_ERR_DLLNOTFOUND then "The specified DLL was not found."
      else if status = SE_ERR_NOASSOC then "There is no application associated with the given file name extension."
      else if status = SE_ERR_OOM then "There was not enough memory to complete the operation."
      else if status = SE_ERR_SHARE then "A sharing violation occurred. "
      else "An unknown error occurred."
    Except.error (Error.launchError ("ShellExecute: " ++ msg))

/-- The status codes with a dedicated message in `check_shellexecute_status`
(the non-wildcard arms of the Rust `match`). -/
def knownStatusCodes : List Nat :=
  [0, ERROR_FILE_NOT_FOUND, ERROR_PATH_NOT_FOUND, ERROR_BAD_FORMAT,
   SE_ERR_ACCESSDENIED, SE_ERR_ASSOCINCOMPLETE, SE_ERR_DDEBUSY, SE_ERR_DDEFAIL,
   SE_ERR_DDETIMEOUT, SE_ERR_DLLNOTFOUND, SE_ERR_NOASSOC, SE_ERR_OOM, SE_ERR_SHARE]

/-! ### Environment -/

/-- Process environment: a map from variable names to values. -/
def EnvMap : Type := String → Option String

/-- `std::env::remove_var`. -/
def remove_var (e : EnvMap) (k : String) : EnvMap :=
  fun k2 => if k2 = k then none else e k2

/-- `clean_environment` from `src/main.rs`: if `MSYSTEM` is set, remove
`HOME`, `SHELL` and `MSYSTEM` (the `.iter().for_each(env::remove_var)` over
the array literal is the left fold over the list). -/
def clean_environment (e : EnvMap) : EnvMap :=
  if (e "MSYSTEM").isSome then
    ["HOME", "SHELL", "MSYSTEM"].foldl remove_var e
  else e

/-! ### Argument joining (the loop in `run`, lines 72-87 of `src/main.rs`) -/

/-- Encoding of one parameter: a parameter containing a space is wrapped in
double quotes (`write!(s, "\"{}\"", a)`), otherwise it is appended verbatim
(`s.push_str(a)`). -/
def encodeArg (a : List Char) : List Char :=
  if a.contains ' ' then '"' :: (a ++ ['"']) else a

/-- One iteration of the joining loop: `if i != 0 { s.push(' ') }` followed by
appending the (possibly quoted) parameter. -/
def joinStep (s : List Char) (p : Nat × List Char) : List Char :=
  (if p.1 ≠ 0 then s ++ [' '] else s) ++ encodeArg p.2

/-- The joining loop of `run`: iterate the parameters with their indices
(`.iter().enumerate()`) starting from the empty string, separating successive
parameters with a single space. -/
def joinArgs (params : List (List Char)) : List Char :=
  params.enum.foldl joinStep []

/-- String-level parameter joining, as `run` applies it to `my_args[2..]`. -/
def joinParams (params : List String) : String :=
  String.mk (joinArgs (params.map String.data))

/-! ### The launcher (`run` and `main`) -/

/-- `true` iff the string contains an embedded NUL byte, the condition under
which `CString::new` fails in `run`. -/
def hasNul (s : String) : Bool :=
  s.data.contains (Char.ofNat 0)

/-- The arguments `run` passes to `ShellExecuteA`, recorded so that claims
about the single OS call can be stated.  `hwndNull`, `operationNull` and
`directoryNull` record that the corresponding pointer argument was null. -/
structure ShellExecuteCall where
  hwndNull : Bool
  operationNull : Bool
  file : String
  parameters : Option String
  directoryNull : Bool
  nShowCmd : Int
  deriving DecidableEq, Repr

/-- What `run` ended with. `help` models the `help_and_exit()` divergence
(usage text printed, process exits 1 without returning from `run`). -/
inductive RunOutcome where
  | ok
  | err (e : Error)
  | help
  deriving DecidableEq, Repr

/-- Result of `run`: its outcome, the process environment after `run`
(mutated only by `clean_environment`), and the `ShellExecuteA` call it made,
if any. -/
structure RunResult where
  outcome : RunOutcome
  env : EnvMap
  call : Option ShellExecuteCall

/-- Tail of `run` after the `CString`s were built (lines 95-121): clean the
environment, invoke `ShellExecuteA` with null hwnd, null operation, the file,
the parameter string (or null), null directory and `SW_SHOWNORMAL`, and
interpret the returned status.  `os_status` is the status the OS call
returns. -/
def launch (file : String) (args_c : Option String) (env0 : EnvMap)
    (os_status : Nat) : RunResult :=
  let env1 := clean_environment env0
  let call : ShellExecuteCall :=
    { hwndNull := true
      operationNull := true
      file := file
      parameters := args_c
      directoryNull := true
      nShowCmd := SW_SHOWNORMAL }
  match check_shellexecute_status os_status with
  | Except.ok () => ⟨RunOutcome.ok, env1, some call⟩
  | Except.error e => ⟨RunOutcome.err e, env1, some call⟩

/-- `run` from `src/main.rs`.  `args` is the full `env::args()` vector
(element 0 is the program name); `env0` the starting environment; `os_status`
the status `ShellExecuteA` would return if called. -/
def run (args : List String) (env0 : EnvMap) (os_status : Nat) : RunResult :=
  match args[1]? with
  | none => ⟨RunOutcome.err (Error.usageError "no file specified"), env0, none⟩
  | some file =>
    if file = "-h" ∨ file = "--help" ∨ file = "/?" then
      ⟨RunOutcome.help, env0, none⟩
    else
      let args_s : Option String :=
        if args.length > 2 then some (joinParams (args.drop 2)) else none
      if hasNul file then
        ⟨RunOutcome.err (Error.encodingError "invalid filename (contains NULL)"), env0, none⟩
      else
        match args_s with
        | some s =>
          if hasNul s then
            ⟨RunOutcome.err (Error.encodingError "invalid arguments (contains NULL)"), env0, none⟩
          else
            launch file (some s) env0 os_status
        | none => launch file none env0 os_status

/-- The usage text printed by `help_and_exit`. -/
def helpText : String :=
  "usage: winstart.exe FILE [ARGUMENTS...]\n\nFILE may be a filename, URL, or executable file.\nIf FILE is an executable, ARGUMENTS are joined with spaces when passed\nto the the programs Windows-style command-line. Any arguments with spaces\nwill be surrounded by double quotes."

/-- Observable result of the whole process: exit code, lines printed to
stdout (`println!`) and stderr (`eprintln!`), final environment, and the
`ShellExecuteA` call made, if any. -/
structure ProcessOutcome where
  exitCode : Nat
  stdout : List String
  stderr : List String
  env : EnvMap
  call : Option ShellExecuteCall

/-- Rendering of an `anyhow` error by `eprintln!` in `main` (the alternate
format prints the outermost message; our messages carry no cause chains
worth modelling beyond the context string attached at the error site). -/
def Error.message : Error → String
  | Error.usageError m => m
  | Error.encodingError m => m
  | Error.launchError m => m

/-- `main` from `src/main.rs`, together with the `help_and_exit` side
effects: on `Err` print the error to stderr and exit 1; on `Ok` exit 0
(printing nothing); on the help path `help_and_exit` prints the usage text
to stdout and exits 1. -/
def main (args : List String) (env0 : EnvMap) (os_status : Nat) : ProcessOutcome :=
  let r := run args env0 os_status
  match r.outcome with
  | RunOutcome.ok => ⟨0, [], [], r.env, r.call⟩
  | RunOutcome.err e => ⟨1, [], ["Error: " ++ e.message], r.env, r.call⟩
  | RunOutcome.help => ⟨1, [helpText], [], r.env, r.call⟩

/-! ### Spec-side definitions (for the refinement claims) -/

/-- What the loop appends for every parameter after the first: a space
followed by the encoded parameter. -/
def joinTail : List (List Char) → List Char
  | [] => []
  | b :: l => ' ' :: (encodeArg b ++ joinTail l)

/-- Modelled from the spec: "any parameter containing a space character is
wrapped in double quotes; parameters without spaces are inserted verbatim,
with no other escaping". -/
def encodeParamSpec (p : String) : String :=
  if p.contains ' ' then "\"" ++ p ++ "\"" else p

/-- Modelled from the spec: "iterate parameters in order, join with a single
space separator", each parameter rendered by `encodeParamSpec`. -/
def joinParamsSpec : List String → String
  | [] => ""
  | [a] => encodeParamSpec a
  | a :: b :: rest => encodeParamSpec a ++ " " ++ joinParamsSpec (b :: rest)

/-- Modelled from the spec: re-parsing of a joined command line under the
same quoting convention, "splitting on spaces outside double quotes,
stripping the surrounding quotes".  `inq` records whether the scanner is
inside double quotes, `cur` the (reversed) characters of the token being
accumulated. -/
def parseGo : List Char → Bool → List Char → List (List Char)
  | [], _, cur => [cur.reverse]
  | c :: rest, inq, cur =>
    if c = '"' then parseGo rest (!inq) cur
    else if inq = false ∧ c = ' ' then cur.reverse :: parseGo rest false []
    else parseGo rest inq (c :: cur)

/-- Modelled from the spec: parse a full joined parameter string; the empty
string carries no parameters. -/
def parseArgs (s : List Char) : List (List Char) :=
  if s = [] then [] else parseGo s false []

/-- String-level re-parsing of a joined parameter string. -/
def parseParams (s : String) : List String :=
  (parseArgs s.data).map String.mk

/-! ### Structural lemmas about the joining loop -/

theorem any_beq_eq_contains (l : List Char) (c : Char) :
    (l.any fun a => a == c) = l.contains c := by
  induction l with
  | nil => rfl
  | cons a l ih =>
    have hsw : (a == c) = (c == a) := by
      rw [Bool.eq_iff_iff]
      simp only [beq_iff_eq]
      exact eq_comm
    simp only [List.any_cons, List.contains_cons, ih, hsw]

theorem string_contains_eq (s : String) (c : Char) :
    s.contains c = s.data.contains c := by
  rw [String.contains, String.any_eq, any_beq_eq_contains]

theorem enumFrom_foldl_joinStep (l : List (List Char)) :
    ∀ (n : Nat) (s : List Char), n ≠ 0 →
      (List.enumFrom n l).foldl joinStep s = s ++ joinTail l := by
  induction l with
  | nil =>
    intro n s _
    simp [joinTail]
  | cons b l ih =>
    intro n s hn
    rw [List.enumFrom_cons, List.foldl_cons]
    have h1 : joinStep s (n, b) = s ++ [' '] ++ encodeArg b := by
      simp [joinStep, hn]
    rw [h1, ih (n + 1) _ (Nat.succ_ne_zero n)]
    simp [joinTail]

theorem joinArgs_nil : joinArgs [] = [] := rfl

theorem joinArgs_cons (a : List Char) (l : List (List Char)) :
    joinArgs (a :: l) = encodeArg a ++ joinTail l := by
  show (List.enumFrom 0 (a :: l)).foldl joinStep [] = _
  rw [List.enumFrom_cons, List.foldl_cons]
  have h1 : joinStep [] (0, a) = encodeArg a := by simp [joinStep]
  rw [h1, enumFrom_foldl_joinStep l 1 _ one_ne_zero]

theorem joinArgs_cons_cons (a b : List Char) (l : List (List Char)) :
    joinArgs (a :: b :: l) = encodeArg a ++ ' ' :: joinArgs (b :: l) := by
  rw [joinArgs_cons, joinArgs_cons]
  rfl

theorem encodeParamSpec_data (p : String) :
    (encodeParamSpec p).data = encodeArg p.data := by
  rw [encodeParamSpec, encodeArg, string_contains_eq]
  split
  · simp [String.data_append]
  · rfl

theorem joinParams_eq_spec (ps : List String) : joinParams ps = joinParamsSpec ps := by
  induction ps with
  | nil => rfl
  | cons a l ih =>
    cases l with
    | nil =>
      apply String.ext
      show joinArgs [a.data] = (joinParamsSpec [a]).data
      rw [joinArgs_cons, joinParamsSpec, encodeParamSpec_data]
      simp [joinTail]
    | cons b rest =>
      apply String.ext
      show joinArgs (a.data :: b.data :: rest.map String.data) = _
      rw [joinArgs_cons_cons, joinParamsSpec]
      have hdata : (joinParamsSpec (b :: rest)).data
          = joinArgs (b.data :: rest.map String.data) := by
        rw [← ih]
        rfl
      simp [String.data_append, encodeParamSpec_data, hdata]

/-! ### Lemmas about the re-parsing convention -/

theorem parseGo_nil (inq : Bool) (cur : List Char) :
    parseGo [] inq cur = [cur.reverse] := rfl

theorem parseGo_quote (rest : List Char) (inq : Bool) (cur : List Char) :
    parseGo ('"' :: rest) inq cur = parseGo rest (!inq) cur := by
  simp [parseGo]

theorem parseGo_space (rest : List Char) (cur : List Char) :
    parseGo (' ' :: rest) false cur = cur.reverse :: parseGo rest false [] := by
  simp [parseGo]

theorem parseGo_other (c : Char) (rest : List Char) (inq : Bool) (cur : List Char)
    (hq : c ≠ '"') (hs : ¬(inq = false ∧ c = ' ')) :
    parseGo (c :: rest) inq cur = parseGo rest inq (c :: cur) := by
  simp [parseGo, hq, hs]

theorem parseGo_chunk_inq (a : List Char) (h : a.contains '"' = false) :
    ∀ rest cur, parseGo (a ++ rest) true cur = parseGo rest true (a.reverse ++ cur) := by
  induction a with
  | nil => intro rest cur; simp
  | cons c a ih =>
    intro rest cur
    simp only [List.contains_cons, Bool.or_eq_false_iff, beq_eq_false_iff_ne] at h
    obtain ⟨hc, ha⟩ := h
    rw [List.cons_append,
      parseGo_other c _ true cur (fun hh => hc hh.symm) (by simp),
      ih ha rest (c :: cur)]
    simp

theorem parseGo_chunk_plain (a : List Char) (hq : a.contains '"' = false)
    (hs : a.contains ' ' = false) :
    ∀ rest cur, parseGo (a ++ rest) false cur = parseGo rest false (a.reverse ++ cur) := by
  induction a with
  | nil => intro rest cur; simp
  | cons c a ih =>
    intro rest cur
    simp only [List.contains_cons, Bool.or_eq_false_iff, beq_eq_false_iff_ne] at hq hs
    obtain ⟨hc, ha⟩ := hq
    obtain ⟨hcs, has⟩ := hs
    rw [List.cons_append,
      parseGo_other c _ false cur (fun hh => hc hh.symm)
        (fun hh => hcs hh.2.symm),
      ih ha has rest (c :: cur)]
    simp

theorem parseGo_encode_end (a : List Char) (hq : a.contains '"' = false) :
    parseGo (encodeArg a) false [] = [a] := by
  rw [encodeArg]
  by_cases hsp : a.contains ' '
  · rw [if_pos hsp, parseGo_quote, Bool.not_false, parseGo_chunk_inq a hq,
      parseGo_quote, Bool.not_true, parseGo_nil]
    simp
  · rw [if_neg hsp]
    nth_rewrite 1 [← List.append_nil a]
    rw [parseGo_chunk_plain a hq (by simpa using hsp), parseGo_nil]
    simp

theorem parseGo_encode_sep (a : List Char) (hq : a.contains '"' = false) (rest : List Char) :
    parseGo (encodeArg a ++ ' ' :: rest) false [] = a :: parseGo rest false [] := by
  rw [encodeArg]
  by_cases hsp : a.contains ' '
  · rw [if_pos hsp]
    have hassoc : ('"' :: (a ++ ['"'])) ++ ' ' :: rest
        = '"' :: (a ++ ('"' :: ' ' :: rest)) := by simp
    rw [hassoc, parseGo_quote, Bool.not_false, parseGo_chunk_inq a hq,
      parseGo_quote, Bool.not_true, parseGo_space]
    simp
  · rw [if_neg hsp, parseGo_chunk_plain a hq (by simpa using hsp), parseGo_space]
    simp

theorem parseGo_joinArgs (ps : List (List Char)) (hne : ps ≠ [])
    (hp : ∀ p ∈ ps, p.contains '"' = false) :
    parseGo (joinArgs ps) false [] = ps := by
  induction ps with
  | nil => exact absurd rfl hne
  | cons a l ih =>
    cases l with
    | nil =>
      rw [joinArgs_cons, joinTail, List.append_nil]
      exact parseGo_encode_end a (hp a (by simp))
    | cons b l2 =>
      rw [joinArgs_cons_cons, parseGo_encode_sep a (hp a (by simp)),
        ih (by simp) (fun p hmem => hp p (List.mem_cons_of_mem a hmem))]

/-! ### Helper lemmas about `check_shellexecute_status`, `launch`, `run`, `main` -/

theorem check_ok_iff (st : Nat) :
    check_shellexecute_status st = Except.ok () ↔ 32 < st := by
  constructor
  · intro h
    by_contra hle
    rw [check_shellexecute_status, if_neg hle] at h
    exact Except.noConfusion h
  · intro h
    rw [check_shellexecute_status, if_pos h]

theorem check_err_exists (st : Nat) (h : ¬ st > 32) :
    ∃ msg, check_shellexecute_status st = Except.error (Error.launchError msg) := by
  rw [check_shellexecute_status, if_neg h]
  exact ⟨_, rfl⟩

theorem launch_ok (file : String) (args_c : Option String) (env0 : EnvMap) (st : Nat)
    (h : 32 < st) :
    launch file args_c env0 st =
      ⟨RunOutcome.ok, clean_environment env0,
       some { hwndNull := true, operationNull := true, file := file,
              parameters := args_c, directoryNull := true, nShowCmd := SW_SHOWNORMAL }⟩ := by
  have hc : check_shellexecute_status st = Except.ok () := (check_ok_iff st).mpr h
  simp [launch, hc]

theorem launch_fail (file : String) (args_c : Option String) (env0 : EnvMap) (st : Nat)
    (h : ¬ 32 < st) :
    ∃ msg, launch file args_c env0 st =
      ⟨RunOutcome.err (Error.launchError msg), clean_environment env0,
       some { hwndNull := true, operationNull := true, file := file,
              parameters := args_c, directoryNull := true, nShowCmd := SW_SHOWNORMAL }⟩ := by
  obtain ⟨msg, hc⟩ := check_err_exists st h
  exact ⟨msg, by simp [launch, hc]⟩

theorem launch_call (file : String) (args_c : Option String) (env0 : EnvMap) (st : Nat) :
    (launch file args_c env0 st).call
      = some { hwndNull := true, operationNull := true, file := file,
               parameters := args_c, directoryNull := true, nShowCmd := SW_SHOWNORMAL } := by
  by_cases h : 32 < st
  · rw [launch_ok file args_c env0 st h]
  · obtain ⟨msg, hl⟩ := launch_fail file args_c env0 st h
    rw [hl]

theorem run_eq_no_file (args : List String) (env0 : EnvMap) (st : Nat)
    (h : args[1]? = none) :
    run args env0 st = ⟨RunOutcome.err (Error.usageError "no file specified"), env0, none⟩ := by
  simp [run, h]

theorem run_eq_help (args : List String) (env0 : EnvMap) (st : Nat) (file : String)
    (h1 : args[1]? = some file)
    (h2 : file = "-h" ∨ file = "--help" ∨ file = "/?") :
    run args env0 st = ⟨RunOutcome.help, env0, none⟩ := by
  simp only [run, h1]
  rw [if_pos h2]

theorem run_eq_nul_file (args : List String) (env0 : EnvMap) (st : Nat) (file : String)
    (h1 : args[1]? = some file)
    (h2 : ¬(file = "-h" ∨ file = "--help" ∨ file = "/?"))
    (h3 : hasNul file = true) :
    run args env0 st
      = ⟨RunOutcome.err (Error.encodingError "invalid filename (contains NULL)"), env0, none⟩ := by
  simp [run, h1, h2, h3]

theorem run_eq_nul_args (args : List String) (env0 : EnvMap) (st : Nat) (file : String)
    (h1 : args[1]? = some file)
    (h2 : ¬(file = "-h" ∨ file = "--help" ∨ file = "/?"))
    (hf : hasNul file = false)
    (hlen : 2 < args.length)
    (hnul : hasNul (joinParams (args.drop 2)) = true) :
    run args env0 st
      = ⟨RunOutcome.err (Error.encodingError "invalid arguments (contains NULL)"), env0, none⟩ := by
  simp [run, h1, h2, hf, hlen, hnul]

theorem run_eq_launch_some (args : List String) (env0 : EnvMap) (st : Nat) (file : String)
    (h1 : args[1]? = some file)
    (h2 : ¬(file = "-h" ∨ file = "--help" ∨ file = "/?"))
    (hf : hasNul file = false)
    (hlen : 2 < args.length)
    (hnul : hasNul (joinParams (args.drop 2)) = false) :
    run args env0 st = launch file (some (joinParams (args.drop 2))) env0 st := by
  simp [run, h1, h2, hf, hlen, hnul]

theorem run_eq_launch_none (args : List String) (env0 : EnvMap) (st : Nat) (file : String)
    (h1 : args[1]? = some file)
    (h2 : ¬(file = "-h" ∨ file = "--help" ∨ file = "/?"))
    (hf : hasNul file = false)
    (hlen : ¬ 2 < args.length) :
    run args env0 st = launch file none env0 st := by
  simp [run, h1, h2, hf, hlen]

theorem run_cases (args : List String) (env0 : EnvMap) (st : Nat) :
    (∃ e, run args env0 st = ⟨RunOutcome.err e, env0, none⟩) ∨
    run args env0 st = ⟨RunOutcome.help, env0, none⟩ ∨
    (∃ file args_c, run args env0 st = launch file args_c env0 st) := by
  cases h1 : args[1]? with
  | none => exact Or.inl ⟨_, run_eq_no_file args env0 st h1⟩
  | some file =>
    by_cases h2 : file = "-h" ∨ file = "--help" ∨ file = "/?"
    · exact Or.inr (Or.inl (run_eq_help args env0 st file h1 h2))
    · by_cases hf : hasNul file
      · exact Or.inl ⟨_, run_eq_nul_file args env0 st file h1 h2 hf⟩
      · have hf2 : hasNul file = false := by simpa using hf
        by_cases hlen : 2 < args.length
        · by_cases hnul : hasNul (joinParams (args.drop 2))
          · exact Or.inl ⟨_, run_eq_nul_args args env0 st file h1 h2 hf2 hlen hnul⟩
          · exact Or.inr (Or.inr ⟨file, _,
              run_eq_launch_some args env0 st file h1 h2 hf2 hlen (by simpa using hnul)⟩)
        · exact Or.inr (Or.inr ⟨file, _,
            run_eq_launch_none args env0 st file h1 h2 hf2 hlen⟩)

theorem main_def_ok (args : List String) (env0 : EnvMap) (st : Nat)
    (h : (run args env0 st).outcome = RunOutcome.ok) :
    main args env0 st = ⟨0, [], [], (run args env0 st).env, (run args env0 st).call⟩ := by
  simp [main, h]

theorem main_def_err (args : List String) (env0 : EnvMap) (st : Nat) (e : Error)
    (h : (run args env0 st).outcome = RunOutcome.err e) :
    main args env0 st
      = ⟨1, [], ["Error: " ++ e.message], (run args env0 st).env, (run args env0 st).call⟩ := by
  simp [main, h]

theorem main_def_help (args : List String) (env0 : EnvMap) (st : Nat)
    (h : (run args env0 st).outcome = RunOutcome.help) :
    main args env0 st = ⟨1, [helpText], [], (run args env0 st).env, (run args env0 st).call⟩ := by
  simp [main, h]

theorem main_call (args : List String) (env0 : EnvMap) (st : Nat) :
    (main args env0 st).call = (run args env0 st).call := by
  cases h : (run args env0 st).outcome with
  | ok => rw [main_def_ok args env0 st h]
  | err e => rw [main_def_err args env0 st e h]
  | help => rw [main_def_help args env0 st h]

/-! ### Claim theorems -/

/-- C1: `check_shellexecute_status` succeeds iff the status is greater
than 32; status 0 yields the out-of-memory/resources `LaunchError`; each
status in the fixed table of named failure codes yields its specific
message by exact status-code match; any other status at most 32 yields the
generic unknown-error message. -/
theorem check_shellexecute_status_spec (status : Nat) :
    (status ≤ 32 → status ∉ knownStatusCodes →
      check_shellexecute_status status
        = Except.error (Error.launchError "ShellExecute: An unknown error occurred.")) ∧
    (check_shellexecute_status status = Except.ok () ↔ 32 < status) ∧
    check_shellexecute_status 0
      = Except.error (Error.launchError "ShellExecute:  The operating system is out of memory or resources.") ∧
    check_shellexecute_status ERROR_FILE_NOT_FOUND
      = Except.error (Error.launchError "ShellExecute: The specified file was not found") ∧
    check_shellexecute_status ERROR_PATH_NOT_FOUND
      = Except.error (Error.launchError "ShellExecute: The specified path was not found.") ∧
    check_shellexecute_status ERROR_BAD_FORMAT
      = Except.error (Error.launchError "ShellExecute: The .exe file is invalid (non-Win32 .exe or error in .exe image).") ∧
    check_shellexecute_status SE_ERR_ACCESSDENIED
      = Except.error (Error.launchError "ShellExecute: The operating system denied access to the specified file.") ∧
    check_shellexecute_status SE_ERR_ASSOCINCOMPLETE
      = Except.error (Error.launchError "ShellExecute: The file name association is incomplete or invalid.") ∧
    check_shellexecute_status SE_ERR_DDEBUSY
      = Except.error (Error.launchError "ShellExecute: The DDE transaction could not be completed because other DDE transactions were being processed.") ∧
    check_shellexecute_status SE_ERR_DDEFAIL
      = Except.error (Error.launchError "ShellExecute: The DDE transaction failed.") ∧
    check_shellexecute_status SE_ERR_DDETIMEOUT
      = Except.error (Error.launchError "ShellExecute: The DDE transaction could not be completed because the request timed out.") ∧
    check_shellexecute_status SE_ERR_DLLNOTFOUND
      = Except.error (Error.launchError "ShellExecute: The specified DLL was not found.") ∧
    check_shellexecute_status SE_ERR_NOASSOC
      = Except.error (Error.launchError "ShellExecute: There is no application associated with the given file name extension.") ∧
    check_shellexecute_status SE_ERR_OOM
      = Except.error (Error.launchError "ShellExecute: There was not enough memory to complete the operation.") ∧
    check_shellexecute_status SE_ERR_SHARE
      = Except.error (Error.launchError "ShellExecute: A sharing violation occurred. ") := by
  refine ⟨?_, ?_, rfl, rfl, rfl, rfl, rfl, rfl, rfl, rfl, rfl, rfl, rfl, rfl, rfl⟩
  · intro hle hmem
    have h32 : ¬ status > 32 := by omega
    simp only [knownStatusCodes, List.mem_cons, List.not_mem_nil, or_false, not_or] at hmem
    obtain ⟨h0, hf, hp, hb, ha, hai, hdb, hdf, hdt, hdll, hna, hoom, hsh⟩ := hmem
    simp [check_shellexecute_status, h32, h0, hf, hp, hb, ha, hai, hdb, hdf, hdt,
      hdll, hna, hoom, hsh]
  · constructor
    · intro h
      by_contra hle
      rw [check_shellexecute_status, if_neg hle] at h
      exact Except.noConfusion h
    · intro h
      rw [check_shellexecute_status, if_pos h]

/-- Witness for C1 at concrete statuses: 33 is a success, 7 is an unknown
failure code. -/
theorem check_shellexecute_status_spec_witness :
    (7 ≤ 32 ∧ 7 ∉ knownStatusCodes) ∧
    check_shellexecute_status 7
      = Except.error (Error.launchError "ShellExecute: An unknown error occurred.") ∧
    check_shellexecute_status 33 = Except.ok () :=
  ⟨⟨by decide, by decide⟩,
   (check_shellexecute_status_spec 7).1 (by decide) (by decide),
   (check_shellexecute_status_spec 33).2.1.mpr (by decide)⟩

/-- C2: the parameter-string builder joins the parameters in order with a
single space separator, wraps any parameter containing a space in double
quotes and inserts the others verbatim (`joinParamsSpec` states this rule
in the spec's words); the listed concrete examples hold, and the empty
sequence joins to the empty string. -/
theorem joinParams_spec :
    joinParams [] = "" ∧
    joinParams ["a"] = "a" ∧
    joinParams ["a", "b c"] = "a \"b c\"" ∧
    joinParams ["a b", "c d"] = "\"a b\" \"c d\"" ∧
    ∀ ps : List String, joinParams ps = joinParamsSpec ps :=
  ⟨rfl, rfl, rfl, rfl, joinParams_eq_spec⟩

/-- C4: `clean_environment` leaves the environment untouched when `MSYSTEM`
is absent; when `MSYSTEM` is present it removes exactly `HOME`, `SHELL` and
`MSYSTEM`, regardless of their prior values, and changes no other
variable. -/
theorem clean_environment_spec (e : EnvMap) :
    (e "MSYSTEM" = none → clean_environment e = e) ∧
    ((e "MSYSTEM").isSome →
      clean_environment e "HOME" = none ∧
      clean_environment e "SHELL" = none ∧
      clean_environment e "MSYSTEM" = none ∧
      ∀ k, k ≠ "HOME" → k ≠ "SHELL" → k ≠ "MSYSTEM" → clean_environment e k = e k) := by
  constructor
  · intro h
    simp [clean_environment, h]
  · intro h
    have hs : (e "MSYSTEM").isSome = true := h
    rw [clean_environment, if_pos hs]
    refine ⟨by simp [remove_var], by simp [remove_var], by simp [remove_var], ?_⟩
    intro k h1 h2 h3
    simp [remove_var, h1, h2, h3]

/-- Witness for C4 at a concrete environment with `MSYSTEM` set (and at one
without it). -/
theorem clean_environment_spec_witness :
    clean_environment (fun k => if k = "MSYSTEM" then some "MSYS" else some "v") "HOME" = none ∧
    clean_environment (fun k => if k = "MSYSTEM" then some "MSYS" else some "v") "PATH" = some "v" ∧
    clean_environment (fun _ => none) = (fun _ => none) :=
  ⟨((clean_environment_spec (fun k => if k = "MSYSTEM" then some "MSYS" else some "v")).2
      (by simp)).1,
   ((clean_environment_spec (fun k => if k = "MSYSTEM" then some "MSYS" else some "v")).2
      (by simp)).2.2.2 "PATH" (by decide) (by decide) (by decide),
   (clean_environment_spec (fun _ => none)).1 rfl⟩

/-- C3: the process exit code is 0 exactly when the OS open primitive was
invoked and returned a status greater than 32, and 1 on every error path:
missing FILE argument, embedded NUL byte, OS primitive failure status, and
the help targets `-h`/`--help`/`/?` (usage text printed, exit code 1). -/
theorem main_exit_code_spec (args : List String) (env0 : EnvMap) (st : Nat) :
    ((main args env0 st).exitCode = 0 ↔ ((main args env0 st).call.isSome ∧ 32 < st)) ∧
    (args[1]? = none → (main args env0 st).exitCode = 1) ∧
    (∀ file, args[1]? = some file → (file = "-h" ∨ file = "--help" ∨ file = "/?") →
      (main args env0 st).exitCode = 1 ∧ (main args env0 st).stdout = [helpText]) ∧
    (∀ file, args[1]? = some file → ¬(file = "-h" ∨ file = "--help" ∨ file = "/?") →
      (hasNul file = true ∨ (2 < args.length ∧ hasNul (joinParams (args.drop 2)) = true)) →
      (main args env0 st).exitCode = 1) ∧
    ((main args env0 st).call.isSome → ¬ 32 < st → (main args env0 st).exitCode = 1) := by
  have hcall := main_call args env0 st
  refine ⟨?_, ?_, ?_, ?_, ?_⟩
  · rcases run_cases args env0 st with ⟨e, hr⟩ | hr | ⟨file, args_c, hr⟩
    · have ho : (run args env0 st).outcome = RunOutcome.err e := by rw [hr]
      have hc : (run args env0 st).call = none := by rw [hr]
      rw [main_def_err args env0 st e ho] at hcall ⊢
      rw [hcall, hc]
      simp
    · have ho : (run args env0 st).outcome = RunOutcome.help := by rw [hr]
      have hc : (run args env0 st).call = none := by rw [hr]
      rw [main_def_help args env0 st ho] at hcall ⊢
      rw [hcall, hc]
      simp
    · by_cases hst : 32 < st
      · have hl := launch_ok file args_c env0 st hst
        rw [hl] at hr
        have ho : (run args env0 st).outcome = RunOutcome.ok := by rw [hr]
        have hc : (run args env0 st).call.isSome := by rw [hr]; rfl
        rw [main_def_ok args env0 st ho] at hcall ⊢
        rw [hcall]
        simp [hc, hst]
      · obtain ⟨msg, hl⟩ := launch_fail file args_c env0 st hst
        rw [hl] at hr
        have ho : (run args env0 st).outcome
            = RunOutcome.err (Error.launchError msg) := by rw [hr]
        rw [main_def_err args env0 st _ ho]
        simp [hst]
  · intro h
    have ho : (run args env0 st).outcome
        = RunOutcome.err (Error.usageError "no file specified") := by
      rw [run_eq_no_file args env0 st h]
    rw [main_def_err args env0 st _ ho]
  · intro file h1 h2
    have ho : (run args env0 st).outcome = RunOutcome.help := by
      rw [run_eq_help args env0 st file h1 h2]
    rw [main_def_help args env0 st ho]
    exact ⟨rfl, rfl⟩
  · intro file h1 h2 h3
    rcases h3 with h3 | ⟨hlen, hnul⟩
    · have ho : (run args env0 st).outcome
          = RunOutcome.err (Error.encodingError "invalid filename (contains NULL)") := by
        rw [run_eq_nul_file args env0 st file h1 h2 h3]
      rw [main_def_err args env0 st _ ho]
    · by_cases hf : hasNul file
      · have ho : (run args env0 st).outcome
            = RunOutcome.err (Error.encodingError "invalid filename (contains NULL)") := by
          rw [run_eq_nul_file args env0 st file h1 h2 hf]
        rw [main_def_err args env0 st _ ho]
      · have ho : (run args env0 st).outcome
            = RunOutcome.err (Error.encodingError "invalid arguments (contains NULL)") := by
          rw [run_eq_nul_args args env0 st file h1 h2 (by simpa using hf) hlen hnul]
        rw [main_def_err args env0 st _ ho]
  · intro hc hst
    rcases run_cases args env0 st with ⟨e, hr⟩ | hr | ⟨file, args_c, hr⟩
    · have ho : (run args env0 st).outcome = RunOutcome.err e := by rw [hr]
      rw [main_def_err args env0 st e ho]
    · have ho : (run args env0 st).outcome = RunOutcome.help := by rw [hr]
      rw [main_def_help args env0 st ho]
    · obtain ⟨msg, hl⟩ := launch_fail file args_c env0 st hst
      rw [hl] at hr
      have ho : (run args env0 st).outcome
          = RunOutcome.err (Error.launchError msg) := by rw [hr]
      rw [main_def_err args env0 st _ ho]

/-- Witness for C3 at concrete invocations: a help invocation exits 1 with
usage text on stdout, and a missing-FILE invocation exits 1. -/
theorem main_exit_code_spec_witness :
    ((["winstart", "-h"] : List String)[1]? = some "-h") ∧
    (main ["winstart", "-h"] (fun _ => none) 33).exitCode = 1 ∧
    (main ["winstart", "-h"] (fun _ => none) 33).stdout = [helpText] ∧
    (main ["winstart"] (fun _ => none) 33).exitCode = 1 :=
  have h1 := (main_exit_code_spec ["winstart", "-h"] (fun _ => none) 33).2.2.1 "-h"
    rfl (Or.inl rfl)
  have h2 := (main_exit_code_spec ["winstart"] (fun _ => none) 33).2.1 rfl
  ⟨rfl, h1.1, h1.2, h2⟩

/-- C5 counterexample: on a successful dispatch (status 33 > 32) the
program writes nothing at all to the error stream — there is no one-line
diagnostic carrying the raw OS status, contrary to the claim. -/
theorem main_success_no_diagnostic :
    (main ["winstart", "foo"] (fun _ => none) 33).exitCode = 0 ∧
    (main ["winstart", "foo"] (fun _ => none) 33).stderr = ([] : List String) :=
  ⟨rfl, rfl⟩

/-- C5 (amended): whenever the OS open primitive is invoked and returns a
status greater than 32, the launcher terminates with exit code 0 and writes
nothing to the error stream (and nothing to stdout). -/
theorem main_success_silent (args : List String) (env0 : EnvMap) (st : Nat)
    (hc : (main args env0 st).call.isSome) (hst : 32 < st) :
    (main args env0 st).exitCode = 0 ∧
    (main args env0 st).stderr = [] ∧
    (main args env0 st).stdout = [] := by
  have hcall := main_call args env0 st
  rcases run_cases args env0 st with ⟨e, hr⟩ | hr | ⟨file, args_c, hr⟩
  · rw [hcall, hr] at hc
    exact absurd hc (by simp)
  · rw [hcall, hr] at hc
    exact absurd hc (by simp)
  · have hl := launch_ok file args_c env0 st hst
    rw [hl] at hr
    have ho : (run args env0 st).outcome = RunOutcome.ok := by rw [hr]
    rw [main_def_ok args env0 st ho]
    exact ⟨rfl, rfl, rfl⟩

/-- Witness for the amended C5 at a concrete successful invocation. -/
theorem main_success_silent_witness :
    (main ["winstart", "foo"] (fun _ => none) 40).call.isSome = true ∧
    (main ["winstart", "foo"] (fun _ => none) 40).exitCode = 0 ∧
    (main ["winstart", "foo"] (fun _ => none) 40).stderr = [] :=
  have h := main_success_silent ["winstart", "foo"] (fun _ => none) 40 (by rfl) (by decide)
  ⟨rfl, h.1, h.2.1⟩

/-- C6: if the target or the joined parameter string contains an embedded
NUL byte, `run` fails with an `EncodingError` and the OS open primitive is
never invoked. -/
theorem run_nul_encoding_error (args : List String) (env0 : EnvMap) (st : Nat) (file : String)
    (h1 : args[1]? = some file)
    (h2 : ¬(file = "-h" ∨ file = "--help" ∨ file = "/?"))
    (h3 : hasNul file = true ∨ (2 < args.length ∧ hasNul (joinParams (args.drop 2)) = true)) :
    (∃ msg, (run args env0 st).outcome = RunOutcome.err (Error.encodingError msg)) ∧
    (run args env0 st).call = none := by
  rcases h3 with h3 | ⟨hlen, hnul⟩
  · rw [run_eq_nul_file args env0 st file h1 h2 h3]
    exact ⟨⟨_, rfl⟩, rfl⟩
  · by_cases hf : hasNul file
    · rw [run_eq_nul_file args env0 st file h1 h2 hf]
      exact ⟨⟨_, rfl⟩, rfl⟩
    · rw [run_eq_nul_args args env0 st file h1 h2 (by simpa using hf) hlen hnul]
      exact ⟨⟨_, rfl⟩, rfl⟩

/-- Witness for C6: a target containing a NUL byte. -/
theorem run_nul_encoding_error_witness :
    ((["winstart", String.mk ['a', Char.ofNat 0]] : List String)[1]?
        = some (String.mk ['a', Char.ofNat 0])) ∧
    hasNul (String.mk ['a', Char.ofNat 0]) = true ∧
    (∃ msg, (run ["winstart", String.mk ['a', Char.ofNat 0]] (fun _ => none) 33).outcome
        = RunOutcome.err (Error.encodingError msg)) ∧
    (run ["winstart", String.mk ['a', Char.ofNat 0]] (fun _ => none) 33).call = none :=
  have h := run_nul_encoding_error ["winstart", String.mk ['a', Char.ofNat 0]]
    (fun _ => none) 33 (String.mk ['a', Char.ofNat 0]) rfl (by decide) (Or.inl (by decide))
  ⟨rfl, by decide, h.1, h.2⟩

/-- C8: with no target argument supplied, `run` fails with a `UsageError`
and the environment variables `HOME`, `SHELL` and `MSYSTEM` retain their
prior values. -/
theorem run_usage_error (args : List String) (env0 : EnvMap) (st : Nat)
    (h : args[1]? = none) :
    (run args env0 st).outcome = RunOutcome.err (Error.usageError "no file specified") ∧
    (run args env0 st).env "HOME" = env0 "HOME" ∧
    (run args env0 st).env "SHELL" = env0 "SHELL" ∧
    (run args env0 st).env "MSYSTEM" = env0 "MSYSTEM" := by
  rw [run_eq_no_file args env0 st h]
  exact ⟨rfl, rfl, rfl, rfl⟩

/-- Witness for C8: only the program name is supplied, with `MSYSTEM` and
`HOME` set; both survive. -/
theorem run_usage_error_witness :
    ((["winstart"] : List String)[1]? = none) ∧
    (run ["winstart"] (fun k => if k = "MSYSTEM" then some "m" else some "v") 33).outcome
      = RunOutcome.err (Error.usageError "no file specified") ∧
    (run ["winstart"] (fun k => if k = "MSYSTEM" then some "m" else some "v") 33).env "HOME"
      = some "v" ∧
    (run ["winstart"] (fun k => if k = "MSYSTEM" then some "m" else some "v") 33).env "MSYSTEM"
      = some "m" :=
  have h := run_usage_error ["winstart"]
    (fun k => if k = "MSYSTEM" then some "m" else some "v") 33 rfl
  ⟨rfl, h.1, h.2.1, h.2.2.2⟩

/-- C9: when FILE is supplied with no further arguments, every
`ShellExecuteA` call `run` makes carries a null (absent) parameter string,
null parent window, null verb, null working directory and the
`SW_SHOWNORMAL` show command; and the call is indeed made whenever FILE is
not a help flag and has no embedded NUL. -/
theorem run_file_only_call (args : List String) (env0 : EnvMap) (st : Nat) (file : String)
    (h1 : args[1]? = some file) (hlen : args.length = 2) :
    (∀ c, (run args env0 st).call = some c →
      c = { hwndNull := true, operationNull := true, file := file,
            parameters := none, directoryNull := true, nShowCmd := SW_SHOWNORMAL }) ∧
    (¬(file = "-h" ∨ file = "--help" ∨ file = "/?") → hasNul file = false →
      (run args env0 st).call.isSome) := by
  have hlen2 : ¬ 2 < args.length := by omega
  constructor
  · intro c hc
    by_cases h2 : file = "-h" ∨ file = "--help" ∨ file = "/?"
    · rw [run_eq_help args env0 st file h1 h2] at hc
      exact absurd hc (by simp)
    · by_cases hf : hasNul file
      · rw [run_eq_nul_file args env0 st file h1 h2 hf] at hc
        exact absurd hc (by simp)
      · rw [run_eq_launch_none args env0 st file h1 h2 (by simpa using hf) hlen2,
          launch_call] at hc
        exact (Option.some.inj hc).symm
  · intro h2 hf
    rw [run_eq_launch_none args env0 st file h1 h2 hf hlen2, launch_call]
    rfl

/-- Witness for C9: `winstart foo` makes the `ShellExecuteA` call with a
null parameter string and the fixed null/`SW_SHOWNORMAL` arguments. -/
theorem run_file_only_call_witness :
    ((["winstart", "foo"] : List String)[1]? = some "foo") ∧
    (["winstart", "foo"] : List String).length = 2 ∧
    (run ["winstart", "foo"] (fun _ => none) 10).call
      = some { hwndNull := true, operationNull := true, file := "foo",
               parameters := none, directoryNull := true, nShowCmd := SW_SHOWNORMAL } := by
  have h := run_file_only_call ["winstart", "foo"] (fun _ => none) 10 "foo" rfl rfl
  have hs := h.2 (by decide) (by decide)
  obtain ⟨c, hc⟩ := Option.isSome_iff_exists.mp hs
  exact ⟨rfl, rfl, by rw [hc, h.1 c hc]⟩

/-- C10: an embedded NUL byte in the target or joined parameter string makes
`run` fail before the environment-cleanup step, so `HOME`, `SHELL` and
`MSYSTEM` keep their prior values. -/
theorem run_nul_env_unchanged (args : List String) (env0 : EnvMap) (st : Nat) (file : String)
    (h1 : args[1]? = some file)
    (h2 : ¬(file = "-h" ∨ file = "--help" ∨ file = "/?"))
    (h3 : hasNul file = true ∨ (2 < args.length ∧ hasNul (joinParams (args.drop 2)) = true)) :
    (∃ msg, (run args env0 st).outcome = RunOutcome.err (Error.encodingError msg)) ∧
    (run args env0 st).env "HOME" = env0 "HOME" ∧
    (run args env0 st).env "SHELL" = env0 "SHELL" ∧
    (run args env0 st).env "MSYSTEM" = env0 "MSYSTEM" := by
  rcases h3 with h3 | ⟨hlen, hnul⟩
  · rw [run_eq_nul_file args env0 st file h1 h2 h3]
    exact ⟨⟨_, rfl⟩, rfl, rfl, rfl⟩
  · by_cases hf : hasNul file
    · rw [run_eq_nul_file args env0 st file h1 h2 hf]
      exact ⟨⟨_, rfl⟩, rfl, rfl, rfl⟩
    · rw [run_eq_nul_args args env0 st file h1 h2 (by simpa using hf) hlen hnul]
      exact ⟨⟨_, rfl⟩, rfl, rfl, rfl⟩

/-- Witness for C10: a NUL byte in the joined parameter string, with
`MSYSTEM`, `HOME` and `SHELL` set; all three survive. -/
theorem run_nul_env_unchanged_witness :
    ((["winstart", "foo", String.mk ['b', Char.ofNat 0]] : List String)[1]? = some "foo") ∧
    hasNul (joinParams (["winstart", "foo", String.mk ['b', Char.ofNat 0]].drop 2)) = true ∧
    (run ["winstart", "foo", String.mk ['b', Char.ofNat 0]]
        (fun k => if k = "PATH" then none else some "p") 33).env "HOME" = some "p" ∧
    (run ["winstart", "foo", String.mk ['b', Char.ofNat 0]]
        (fun k => if k = "PATH" then none else some "p") 33).env "MSYSTEM" = some "p" :=
  have h := run_nul_env_unchanged ["winstart", "foo", String.mk ['b', Char.ofNat 0]]
    (fun k => if k = "PATH" then none else some "p") 33 "foo" rfl (by decide)
    (Or.inr ⟨by decide, by decide⟩)
  ⟨rfl, by decide, h.2.1, h.2.2.2⟩

/-- C7 counterexample: joining is not injective, so no re-parsing can
recover every double-quote-free parameter sequence.  The one-element
sequence holding the empty parameter joins to the empty string, exactly as
the empty sequence does; the spec-modelled parser returns the empty
sequence there, so the sequence `[""]` is not recovered. -/
theorem parse_join_roundtrip_cex :
    ("".contains '"' = false) ∧
    joinParams [""] = joinParams [] ∧
    ([""] : List String) ≠ [] ∧
    parseParams (joinParams [""]) ≠ [""] :=
  ⟨by rw [string_contains_eq]; rfl, rfl, by decide, by decide⟩

/-- C7 (amended): for every sequence of parameters none of which contains a
literal double-quote character, other than the one-element sequence holding
the empty parameter, re-parsing the joined parameter string under the same
quoting convention recovers exactly the original sequence. -/
theorem parse_join_roundtrip (ps : List String)
    (hq : ∀ p ∈ ps, p.contains '"' = false)
    (hne : ps ≠ [""]) :
    parseParams (joinParams ps) = ps := by
  cases ps with
  | nil => rfl
  | cons a l =>
    have hq2 : ∀ p ∈ (a :: l).map String.data, p.contains '"' = false := by
      intro p hp
      obtain ⟨s, hs, rfl⟩ := List.mem_map.mp hp
      have hcs := hq s hs
      rw [string_contains_eq] at hcs
      exact hcs
    have hjoin : joinArgs ((a :: l).map String.data) ≠ [] := by
      cases l with
      | nil =>
        have ha : a ≠ "" := fun hh => hne (by rw [hh])
        have had : a.data ≠ [] := fun hh => ha (String.ext hh)
        rw [List.map_cons, List.map_nil, joinArgs_cons, joinTail, List.append_nil,
          encodeArg]
        by_cases hsp : a.data.contains ' '
        · rw [if_pos hsp]
          simp
        · rw [if_neg hsp]
          exact had
      | cons b l2 =>
        rw [List.map_cons, List.map_cons, joinArgs_cons_cons]
        intro hh
        exact absurd (List.append_eq_nil.mp hh).2 (by simp)
    show ((parseArgs (joinArgs ((a :: l).map String.data))).map String.mk) = a :: l
    rw [parseArgs, if_neg hjoin,
      parseGo_joinArgs ((a :: l).map String.data) (by simp) hq2, List.map_map]
    exact List.map_id (a :: l)

/-- Witness for the amended C7 at a concrete parameter sequence with and
without spaces. -/
theorem parse_join_roundtrip_witness :
    (∀ p ∈ (["a", "b c"] : List String), p.contains '"' = false) ∧
    (["a", "b c"] : List String) ≠ [""] ∧
    parseParams (joinParams ["a", "b c"]) = ["a", "b c"] :=
  have hqw : ∀ p ∈ (["a", "b c"] : List String), p.contains '"' = false := by
    intro p hp
    rw [string_contains_eq]
    rcases List.mem_cons.mp hp with rfl | hp2
    · decide
    · rcases List.mem_cons.mp hp2 with rfl | hp3
      · decide
      · exact absurd hp3 (List.not_mem_nil p)
  ⟨hqw, by decide, parse_join_roundtrip ["a", "b c"] hqw (by decide)⟩

end Winstart
